import Mathlib

/-!
Verification development for the Move async VM actor-execution core
(`language/extensions/async/move-async-vm/src/async_vm.rs`).

The Rust source is shallowly embedded below.  The underlying Move VM
(`MoveVM` / `Session`) is an external collaborator; its behaviour at the
points where `async_vm.rs` calls into it (`load_type`, `load_resource`,
`get_type_layout`, `simple_serialize`, `execute_function_bypass_visibility`
followed by `finish_with_extensions`) is modelled as an explicit record of
functions (`EngineOracle`), so every theorem quantifies over all possible
engine behaviours at those call sites.

Machine integers: gas values are `u64` in the source; they are embedded as
`Nat` together with an explicit wrapping subtraction modulo `2 ^ 64`
(`wrap_sub_u64`), mirroring the release-mode semantics of the `u64`
subtraction performed in `new_actor` / `handle_message` (in a debug build
that subtraction panics on underflow; the wrap makes the divergence from
the specified value visible as a concrete number).
-/

namespace MoveAsyncVM

/-- Account addresses (`AccountAddress`), abstracted to `Nat`. -/
abbrev AccountAddress := Nat

/-- Identifiers (`Identifier`), abstracted to `String`. -/
abbrev Identifier := String

/-- Serialized byte strings (`Vec<u8>`), abstracted to `List Nat`. -/
abbrev Bytes := List Nat

/-- Embeds `move_core_types::language_storage::ModuleId`. -/
structure ModuleId where
  address : AccountAddress
  name : Identifier
deriving DecidableEq

/-- Display rendering of a `ModuleId` (used by `format!` in error messages). -/
def ModuleId.display (m : ModuleId) : String :=
  Nat.repr m.address ++ ("::") ++ m.name

/-- Embeds `ModuleId::short_str_lossless` (short display used in some messages).
The exact rendering is immaterial to the claims; it only needs to be a
deterministic function of the module id. -/
def ModuleId.short_str_lossless (m : ModuleId) : String :=
  Nat.repr m.address ++ ("::") ++ m.name

/-- Embeds `move_core_types::language_storage::StructTag`.  Type parameters are
omitted: the actor state types routed through `async_vm.rs` carry the tag
opaquely, and no claim depends on generic instantiation. -/
structure StructTag where
  address : AccountAddress
  module : Identifier
  name : Identifier
deriving DecidableEq

/-- Embeds `TypeTag`; only the `Struct` variant is used by `async_vm.rs`
(`TypeTag::Struct(actor.state_tag.clone())`). -/
inductive TypeTag where
  | struct (tag : StructTag)
deriving DecidableEq

/-- Status codes of `vm_status::StatusCode`; only the codes that `async_vm.rs`
itself produces are distinguished, everything else is `other`. -/
inductive StatusCode where
  | VM_EXTENSION_ERROR
  | MISSING_DATA
  | other (code : Nat)
deriving DecidableEq

/-- Embeds `move_binary_format::errors::Location`. -/
inductive Location where
  | undefined
  | inModule (m : ModuleId)
deriving DecidableEq

/-- Embeds `PartialVMError` (major status plus optional message; sub-status and
stack traces are not consulted by `async_vm.rs`). -/
structure PartialVMError where
  major_status : StatusCode
  message : Option String
deriving DecidableEq

/-- Embeds `VMError`: a `PartialVMError` finished with a `Location`. -/
structure VMError where
  major_status : StatusCode
  message : Option String
  location : Location
deriving DecidableEq

/-- Embeds `PartialVMError::finish(location)`. -/
def PartialVMError.finish (e : PartialVMError) (loc : Location) : VMError :=
  { major_status := e.major_status, message := e.message, location := loc }

/-- Embeds `VMError::to_partial()` (used by `AsyncSession::to_bcs`). -/
def VMError.toPartialErr (e : VMError) : PartialVMError :=
  { major_status := e.major_status, message := e.message }

/-- Embeds `partial_extension_error` (async_vm.rs:358):
`PartialVMError::new(StatusCode::VM_EXTENSION_ERROR).with_message(msg)`. -/
def pvm_extension_error (msg : String) : PartialVMError :=
  { major_status := StatusCode.VM_EXTENSION_ERROR, message := Option.some msg }

/-- Embeds `extension_error` (async_vm.rs:362):
`partial_extension_error(msg).finish(Location::Undefined)`. -/
def extension_error (msg : String) : VMError :=
  (pvm_extension_error msg).finish Location.undefined

/-- Messages (`type Message = (AccountAddress, u64, Vec<Vec<u8>>)`). -/
abbrev Message := AccountAddress × Nat × List Bytes

/-- Events emitted by the engine; opaque to `async_vm.rs`, which only passes
them through, so they are abstracted to `Nat`. -/
abbrev Event := Nat

/-- Modelled from the spec: `AsyncExtension` lives in `natives.rs`, which is
not part of the embedded core file.  Per spec section 4.3 the context carries
the current actor address, the virtual time, the initializer-phase flag and an
ordered outgoing-message buffer appended to by native code. -/
structure AsyncExtension where
  current_actor : AccountAddress
  sent : List Message
  in_initializer : Bool
  virtual_time : Nat
deriving DecidableEq

/-- Embeds `make_extensions` (async_vm.rs:332): a fresh extension with an empty
`sent` buffer and the given initializer-phase flag. -/
def make_extensions (actor_addr : AccountAddress) (virtual_time : Nat)
    (in_init : Bool) : AsyncExtension :=
  { current_actor := actor_addr, sent := [], in_initializer := in_init,
    virtual_time := virtual_time }

/-- Embeds `ActorMetadata` (declared in `actor_metadata.rs`, consumed here):
module identity, state struct tag, initializer entry point, message names. -/
structure ActorMetadata where
  module_id : ModuleId
  state_tag : StructTag
  initializer : Identifier
  messages : List Identifier
deriving DecidableEq

/-- Lookup in an association list; embeds `HashMap::get` for the catalog and
the message table (hash maps have unique keys, so the first match is the
match). -/
def assocFind {α β : Type} [DecidableEq α] : List (α × β) → α → Option β
  | [], _ => Option.none
  | (k, v) :: rest, key => if key = k then Option.some v else assocFind rest key

/-- Change sets (`move_core_types::effects::ChangeSet`) restricted to resource
entries, as association lists from (address, struct tag) to `Option Bytes`
(`some` = publish/write, `none` = delete), mirroring the
`BTreeMap<StructTag, Option<Vec<u8>>>` per account. -/
abbrev ChangeSet := List ((AccountAddress × StructTag) × Option Bytes)

/-- Embeds `GlobalValue` as returned by `Session::get_data_store().load_resource`:
either no resource is present at the slot, or a cached value is. -/
inductive GlobalValue where
  | absent
  | cached (v : Nat)
deriving DecidableEq

/-- Move runtime values flowing through `borrow_global`/`read_ref`; opaque to
`async_vm.rs` (only serialized), abstracted to `Nat`. -/
abbrev MoveValue := Nat

/-- Loaded runtime types (`Type`, the output of `Session::load_type`); opaque
to `async_vm.rs`, abstracted to `Nat`. -/
abbrev MoveType := Nat

/-- Type layouts (`MoveTypeLayout`); opaque to `async_vm.rs`, abstracted. -/
abbrev TypeLayout := Nat

/-- Embeds `GlobalValue::exists()`: `PartialVMResult<bool>` reporting whether a
resource occupies the slot (it does not fail on the states reachable here). -/
def GlobalValue.exists_res : GlobalValue → Except PartialVMError Bool
  | GlobalValue.absent => Except.ok false
  | GlobalValue.cached _ => Except.ok true

/-- Embeds the chain `borrow_global().and_then(value_as::<Reference>).and_then(read_ref)`
used by `handle_message`: on an absent resource `borrow_global` fails with
`MISSING_DATA`; on a cached value the chain yields the value. -/
def GlobalValue.borrow_read : GlobalValue → Except PartialVMError MoveValue
  | GlobalValue.absent =>
      Except.error { major_status := StatusCode.MISSING_DATA, message := Option.none }
  | GlobalValue.cached v => Except.ok v

/-- Embeds `SerializedReturnValues` (mutable-reference outputs are
`(local index, bytes, layout)` triples, return values are `(bytes, layout)`
pairs). -/
structure SerializedReturnValues where
  mutable_reference_outputs : List (Nat × Bytes × TypeLayout)
  return_values : List (Bytes × TypeLayout)
deriving DecidableEq

/-- The effects of one engine invocation, i.e. of
`execute_function_bypass_visibility` chained with `finish_with_extensions`:
serialized results, the change set and events accumulated by the engine, and
the messages appended to the `AsyncExtension` buffer during the call.
`sent_during` is modelled from the spec: natives only append to the buffer
(spec section 4.3), so the final buffer is the initial one followed by
`sent_during`. -/
structure ExecEffects where
  ret : SerializedReturnValues
  change_set : ChangeSet
  events : List Event
  sent_during : List Message
deriving DecidableEq

/-- The external engine at the call sites used by `async_vm.rs`.  `execute`
receives the injected extension, the target function, the serialized
arguments and the remaining gas, and yields the outcome together with the gas
remaining afterwards. -/
structure EngineOracle where
  load_type : TypeTag → Except VMError MoveType
  load_resource : AccountAddress → MoveType → Except PartialVMError GlobalValue
  get_type_layout : TypeTag → Except VMError TypeLayout
  simple_serialize : MoveValue → TypeLayout → Option Bytes
  execute : AsyncExtension → ModuleId → Identifier → List Bytes → Nat →
    Except VMError ExecEffects × Nat

/-- Embeds the `AsyncVM` struct: the actor catalog and the message dispatch
table (the `MoveVM` handle is part of the oracle). -/
structure AsyncVM where
  actor_metadata : List (ModuleId × ActorMetadata)
  message_table : List (Nat × (ModuleId × Identifier))

/-- Embeds `AsyncSuccess`. -/
structure AsyncSuccess where
  change_set : ChangeSet
  events : List Event
  messages : List Message
  gas_used : Nat
deriving DecidableEq

/-- Embeds `AsyncError`. -/
structure AsyncError where
  error : VMError
  gas_used : Nat
deriving DecidableEq

/-- Embeds `type AsyncResult = Result<AsyncSuccess, AsyncError>`. -/
abbrev AsyncResult := Except AsyncError AsyncSuccess

/-- Embeds `async_extension_error` (async_vm.rs:366): an `AsyncError` with the
given extension-error message and `gas_used` hard-coded to `0`. -/
def async_extension_error (msg : String) : AsyncError :=
  { error := extension_error msg, gas_used := 0 }

/-- Embeds `vm_error_to_async` (async_vm.rs:373). -/
def vm_error_to_async (error : VMError) : AsyncError :=
  { error := error, gas_used := 0 }

/-- Embeds `partial_vm_error_to_async` (async_vm.rs:377):
`vm_error_to_async(error.finish(Location::Undefined))`. -/
def pvm_error_to_async (error : PartialVMError) : AsyncError :=
  vm_error_to_async (error.finish Location.undefined)

/-- The modulus of `u64` arithmetic. -/
def U64_MOD : Nat := 18446744073709551616

/-- Wrapping `u64` subtraction `a - b` (release-mode semantics of the Rust
subtraction; in a debug build the same expression panics on underflow). -/
def wrap_sub_u64 (a b : Nat) : Nat := (a + (U64_MOD - b % U64_MOD)) % U64_MOD

/-- Embeds `publish_actor_state` (async_vm.rs:347):
`ChangeSet::publish_resource`, which records `some state` at the key and fails
if any entry (publish or delete) already occupies it. -/
def publish_actor_state (change_set : ChangeSet) (actor_addr : AccountAddress)
    (state_tag : StructTag) (state : Bytes) : Except PartialVMError ChangeSet :=
  match assocFind change_set (actor_addr, state_tag) with
  | Option.some _ =>
      Except.error (pvm_extension_error ("cannot publish actor state: resource already exists"))
  | Option.none => Except.ok (change_set ++ [((actor_addr, state_tag), Option.some state)])

/-- Embeds the `AsyncSession` struct: the owning VM, the (borrowed) underlying
Move VM session abstracted as the oracle, and the injected extension. -/
structure AsyncSession where
  vm : AsyncVM
  oracle : EngineOracle
  ext : AsyncExtension

/-- Embeds `AsyncVM::new_session` (async_vm.rs:75): the extension is built by
`make_extensions(for_actor, virtual_time, true)` — the initializer-phase flag
is the literal `true`, whichever operation the session later performs. -/
def AsyncVM.new_session (vm : AsyncVM) (oracle : EngineOracle)
    (for_actor : AccountAddress) (virtual_time : Nat) : AsyncSession :=
  { vm := vm, oracle := oracle, ext := make_extensions for_actor virtual_time true }

/-- Embeds `return_values.remove(0).0` under the arity-one guard (the bytes of
the first return value). -/
def first_return_bytes : List (Bytes × TypeLayout) → Bytes
  | (b, _) :: _ => b
  | [] => []

/-- Embeds `mutable_reference_outputs.remove(0).1` under the non-empty guard
(the bytes of the first mutable-reference output). -/
def first_mut_ref_bytes : List (Nat × Bytes × TypeLayout) → Bytes
  | (_, b, _) :: _ => b
  | [] => []

/-- Embeds `AsyncSession::new_actor` (async_vm.rs:148). -/
def AsyncSession.new_actor (s : AsyncSession) (module_id : ModuleId)
    (actor_addr : AccountAddress) (gas_status : Nat) : AsyncResult :=
  match assocFind s.vm.actor_metadata module_id with
  | Option.none =>
      Except.error (async_extension_error
        (("actor `") ++ module_id.display ++ ("` unknown")))
  | Option.some actor =>
    match s.oracle.load_type (TypeTag.struct actor.state_tag) with
    | Except.error e => Except.error (vm_error_to_async e)
    | Except.ok state_type =>
      match s.oracle.load_resource actor_addr state_type with
      | Except.error e => Except.error (pvm_error_to_async e)
      | Except.ok state =>
        match state.exists_res with
        | Except.error e => Except.error (pvm_error_to_async e)
        | Except.ok true =>
            Except.error (async_extension_error
              (("actor `") ++ module_id.short_str_lossless ++ ("` already exists at `")
                ++ Nat.repr actor_addr ++ ("`")))
        | Except.ok false =>
          let gas_before := gas_status
          let pair := s.oracle.execute s.ext actor.module_id actor.initializer [] gas_status
          let gas_used := wrap_sub_u64 pair.2 gas_before
          match pair.1 with
          | Except.error error => Except.error { error := error, gas_used := gas_used }
          | Except.ok eff =>
            if eff.ret.return_values.length ≠ 1 then
              Except.error (async_extension_error
                (("inconsistent initializer `") ++ actor.initializer ++ ("`")))
            else
              match publish_actor_state eff.change_set actor_addr actor.state_tag
                  (first_return_bytes eff.ret.return_values) with
              | Except.error e => Except.error (pvm_error_to_async e)
              | Except.ok change_set =>
                  Except.ok { change_set := change_set, events := eff.events,
                              messages := s.ext.sent ++ eff.sent_during,
                              gas_used := gas_used }

/-- Embeds `AsyncSession::to_bcs` (async_vm.rs:321). -/
def AsyncSession.to_bcs (s : AsyncSession) (value : MoveValue) (tag : TypeTag) :
    Except PartialVMError Bytes :=
  match s.oracle.get_type_layout tag with
  | Except.error e => Except.error e.toPartialErr
  | Except.ok type_layout =>
    match s.oracle.simple_serialize value type_layout with
    | Option.some b => Except.ok b
    | Option.none => Except.error (pvm_extension_error ("serialization failed"))

/-- Embeds `AsyncSession::handle_message` (async_vm.rs:232). -/
def AsyncSession.handle_message (s : AsyncSession) (actor_addr : AccountAddress)
    (message_hash : Nat) (args : List Bytes) (gas_status : Nat) : AsyncResult :=
  match assocFind s.vm.message_table message_hash with
  | Option.none =>
      Except.error (async_extension_error
        (("unknown message hash `") ++ Nat.repr message_hash ++ ("`")))
  | Option.some (module_id, handler_id) =>
    match assocFind s.vm.actor_metadata module_id with
    | Option.none =>
        Except.error (async_extension_error
          (("actor `") ++ module_id.short_str_lossless ++ ("` unknown")))
    | Option.some actor =>
      match s.oracle.load_type (TypeTag.struct actor.state_tag) with
      | Except.error e => Except.error (vm_error_to_async e)
      | Except.ok state_type =>
        match s.oracle.load_resource actor_addr state_type with
        | Except.error e => Except.error (pvm_error_to_async e)
        | Except.ok actor_state_global =>
          match actor_state_global.borrow_read with
          | Except.error e => Except.error (pvm_error_to_async e)
          | Except.ok actor_state =>
            match s.to_bcs actor_state (TypeTag.struct actor.state_tag) with
            | Except.error e => Except.error (pvm_error_to_async e)
            | Except.ok state_bytes =>
              let args2 := state_bytes :: args
              let gas_before := gas_status
              let pair := s.oracle.execute s.ext module_id handler_id args2 gas_status
              let gas_used := wrap_sub_u64 pair.2 gas_before
              match pair.1 with
              | Except.error error => Except.error { error := error, gas_used := gas_used }
              | Except.ok eff =>
                if eff.ret.mutable_reference_outputs.length > 1 then
                  Except.error (async_extension_error
                    (("inconsistent handler `") ++ handler_id ++ ("`")))
                else
                  match
                    (if eff.ret.mutable_reference_outputs.isEmpty then
                      Except.ok eff.change_set
                    else
                      publish_actor_state eff.change_set actor_addr actor.state_tag
                        (first_mut_ref_bytes eff.ret.mutable_reference_outputs)) with
                  | Except.error e => Except.error (pvm_error_to_async e)
                  | Except.ok change_set =>
                      Except.ok { change_set := change_set, events := eff.events,
                                  messages := s.ext.sent ++ eff.sent_during,
                                  gas_used := gas_used }

/-! ## Concrete fixtures

A one-actor configuration used to evaluate the operations on concrete
inputs: a `Counter` actor with one registered message, plus engine oracles
describing particular engine behaviours. -/

/-- The `Counter` actor module. -/
def counterModule : ModuleId := { address := 1, name := ("Counter") }

/-- The `Counter` actor state struct tag. -/
def counterStateTag : StructTag :=
  { address := 1, module := ("Counter"), name := ("CounterState") }

/-- Catalog entry for the `Counter` actor. -/
def counterMeta : ActorMetadata :=
  { module_id := counterModule, state_tag := counterStateTag,
    initializer := ("init"), messages := [("increment")] }

/-- A VM whose catalog holds the `Counter` actor and whose dispatch table maps
hash `42` to its `increment` handler. -/
def demoVM : AsyncVM :=
  { actor_metadata := [(counterModule, counterMeta)],
    message_table := [(42, (counterModule, ("increment")))] }

/-- An engine oracle with fixed resource content and a fixed execution
outcome: loading types and layouts succeeds, the resource slot holds `res`,
serialization yields `[9]`, and every execution returns `outcome` leaving
`gas_after` gas. -/
def demoOracle (res : GlobalValue) (outcome : Except VMError ExecEffects)
    (gas_after : Nat) : EngineOracle :=
  { load_type := fun _ => Except.ok 0,
    load_resource := fun _ _ => Except.ok res,
    get_type_layout := fun _ => Except.ok 0,
    simple_serialize := fun _ _ => Option.some [9],
    execute := fun _ _ _ _ _ => (outcome, gas_after) }

/-- An engine outcome where the initializer returns exactly one value with
bytes `[0]` and produces no other effects. -/
def oneReturnEffects : ExecEffects :=
  { ret := { mutable_reference_outputs := [], return_values := [([0], 0)] },
    change_set := [], events := [], sent_during := [] }

/-- An engine outcome where the initializer returns two values (inconsistent
arity) and produces no other effects. -/
def twoReturnEffects : ExecEffects :=
  { ret := { mutable_reference_outputs := [], return_values := [([0], 0), ([1], 0)] },
    change_set := [], events := [], sent_during := [] }

/-- An engine oracle whose execution reports, through the event list, the
initializer-phase flag of the extension it was handed: events `[1]` when the
flag was `true`, `[0]` when it was `false`.  It leaves gas untouched, returns
no values and mutates no references. -/
def flagProbeOracle : EngineOracle :=
  { load_type := fun _ => Except.ok 0,
    load_resource := fun _ _ => Except.ok (GlobalValue.cached 5),
    get_type_layout := fun _ => Except.ok 0,
    simple_serialize := fun _ _ => Option.some [9],
    execute := fun ext _ _ _ g =>
      (Except.ok { ret := { mutable_reference_outputs := [], return_values := [] },
                   change_set := [], events := [if ext.in_initializer then 1 else 0],
                   sent_during := [] }, g) }

/-- Number of entries with key `k` in an association list (used to state that
a change set holds exactly one entry for an actor's state key). -/
def countKey {α β : Type} [DecidableEq α] (l : List (α × β)) (k : α) : Nat :=
  (l.filter (fun e => decide (e.1 = k))).length

/-- A module identity that is not registered in `demoVM`. -/
def otherModule : ModuleId := { address := 2, name := ("Other") }

/-- An engine outcome where the handler yields one mutable-reference output
with bytes `[7]`, emits an event and queues one message. -/
def oneMutEffects : ExecEffects :=
  { ret := { mutable_reference_outputs := [(0, [7], 0)], return_values := [] },
    change_set := [], events := [4], sent_during := [(9, 42, [[1]])] }

/-- An engine outcome where the handler yields two mutable-reference outputs
(inconsistent) and produces no other effects. -/
def twoMutEffects : ExecEffects :=
  { ret := { mutable_reference_outputs := [(0, [1], 0), (1, [2], 0)], return_values := [] },
    change_set := [], events := [], sent_during := [] }

/-- An engine outcome where the handler yields no mutable-reference output
but emits an event and queues two messages. -/
def noMutEffects : ExecEffects :=
  { ret := { mutable_reference_outputs := [], return_values := [] },
    change_set := [], events := [5], sent_during := [(4, 42, [[2]]), (5, 42, [[3]])] }

/-- An engine oracle for exercising both operations in one configuration: the
resource slot is empty at address `7` and occupied at every other address;
executing the `init` entry point returns two values leaving 90 gas, executing
anything else yields two mutable-reference outputs leaving 80 gas. -/
def splitOracle : EngineOracle :=
  { load_type := fun _ => Except.ok 0,
    load_resource := fun a _ =>
      if a = 7 then Except.ok GlobalValue.absent else Except.ok (GlobalValue.cached 5),
    get_type_layout := fun _ => Except.ok 0,
    simple_serialize := fun _ _ => Option.some [9],
    execute := fun _ _ hid _ _ =>
      if hid = ("init") then (Except.ok twoReturnEffects, 90)
      else (Except.ok twoMutEffects, 80) }

/-- An engine oracle for successful runs of both operations: the resource
slot is empty at address `7` and occupied elsewhere; the `init` entry point
returns one value and queues one message, any other entry point queues two
messages and mutates nothing.  Gas is left unchanged. -/
def messagingOracle : EngineOracle :=
  { load_type := fun _ => Except.ok 0,
    load_resource := fun a _ =>
      if a = 7 then Except.ok GlobalValue.absent else Except.ok (GlobalValue.cached 5),
    get_type_layout := fun _ => Except.ok 0,
    simple_serialize := fun _ _ => Option.some [9],
    execute := fun _ _ hid _ g =>
      if hid = ("init") then
        (Except.ok { ret := { mutable_reference_outputs := [], return_values := [([0], 0)] },
                     change_set := [], events := [], sent_during := [(3, 42, [[1]])] }, g)
      else (Except.ok noMutEffects, g) }

/-- A sample engine-level `VMError`. -/
def demoVMError : VMError :=
  { major_status := StatusCode.other 1, message := Option.none,
    location := Location.undefined }

/-- A sample engine-level `PartialVMError`. -/
def demoPVMError : PartialVMError :=
  { major_status := StatusCode.other 2, message := Option.none }

/-- An engine oracle whose `load_type` fails. -/
def failTypeOracle : EngineOracle :=
  { load_type := fun _ => Except.error demoVMError,
    load_resource := fun _ _ => Except.error demoPVMError,
    get_type_layout := fun _ => Except.error demoVMError,
    simple_serialize := fun _ _ => Option.none,
    execute := fun _ _ _ _ g => (Except.error demoVMError, g) }

/-- An engine oracle whose `load_resource` fails. -/
def failResourceOracle : EngineOracle :=
  { load_type := fun _ => Except.ok 0,
    load_resource := fun _ _ => Except.error demoPVMError,
    get_type_layout := fun _ => Except.error demoVMError,
    simple_serialize := fun _ _ => Option.none,
    execute := fun _ _ _ _ g => (Except.error demoVMError, g) }

/-- An engine oracle whose `get_type_layout` fails (the resource itself loads
and borrows fine). -/
def failLayoutOracle : EngineOracle :=
  { load_type := fun _ => Except.ok 0,
    load_resource := fun _ _ => Except.ok (GlobalValue.cached 5),
    get_type_layout := fun _ => Except.error demoVMError,
    simple_serialize := fun _ _ => Option.none,
    execute := fun _ _ _ _ g => (Except.error demoVMError, g) }

/-- An engine oracle whose `simple_serialize` yields nothing (everything
before it succeeds). -/
def failSerializeOracle : EngineOracle :=
  { load_type := fun _ => Except.ok 0,
    load_resource := fun _ _ => Except.ok (GlobalValue.cached 5),
    get_type_layout := fun _ => Except.ok 0,
    simple_serialize := fun _ _ => Option.none,
    execute := fun _ _ _ _ g => (Except.error demoVMError, g) }

/-! ## Claim C1 -/

/-- Claim C1 (code divergence, concrete run): `new_actor` on the registered
`Counter` actor at a fresh address, where the engine invocation succeeds and
consumes 10 gas (remaining 100 before, 90 after).  The source computes
`gas_used = remaining_after - gas_before` (async_vm.rs:191 and, identically,
:281), i.e. `90 - 100` as a `u64`: the claimed value `before - after = 10` is
not what is reported — the wrapped value `2 ^ 64 - 10` is. -/
theorem gas_used_is_after_minus_before_wrapped :
    (demoVM.new_session (demoOracle GlobalValue.absent (Except.ok oneReturnEffects) 90)
        7 0).new_actor counterModule 7 100 =
      Except.ok { change_set := [((7, counterStateTag), Option.some [0])], events := [],
                  messages := [], gas_used := 18446744073709551606 } ∧
    (100 : Nat) - 90 = 10 ∧ (18446744073709551606 : Nat) ≠ 10 :=
  ⟨rfl, rfl, by decide⟩

/-! ## Claim C2 -/

/-- Claim C2 (counterexample): the initializer-phase flag injected into the
engine is `true` even for a session consumed by `handle_message`.  The probe
oracle records the flag it is handed in the event list: the `handle_message`
run below reports events `[1]` (flag `true`), where the claim requires the
flag to be `false` (which would have produced events `[0]`). -/
theorem handle_message_session_flag_is_true :
    (demoVM.new_session flagProbeOracle 7 0).ext.in_initializer = true ∧
    (demoVM.new_session flagProbeOracle 7 0).handle_message 7 42 [] 100 =
      Except.ok { change_set := [], events := [1], messages := [], gas_used := 0 } ∧
    (1 : Nat) ≠ 0 :=
  ⟨rfl, rfl, by decide⟩

/-- Claim C2 (amended): the execution context injected at session creation
carries an initializer-phase flag that is always `true`: `new_session` builds
the extension with `make_extensions(for_actor, virtual_time, true)` before it
is known which operation the session will perform, so message-handler
executions also run with the flag set. -/
theorem new_session_flag_always_true (vm : AsyncVM) (o : EngineOracle)
    (for_actor : AccountAddress) (virtual_time : Nat) :
    (vm.new_session o for_actor virtual_time).ext.in_initializer = true := rfl

/-! ## Claim C3 -/

/-- Claim C3 (counterexample, concrete run): `new_actor` where the engine call
completes successfully, consumes 10 gas (100 remaining before, 90 after) and
returns two values.  The source routes the arity failure through
`async_extension_error`, which hard-codes `gas_used = 0` (async_vm.rs:366),
so the reported gas is `0` even though the completed execution consumed
`10 ≠ 0` gas — contradicting the claimed "full gas consumed, not zero". -/
theorem inconsistent_initializer_reports_zero_gas :
    (demoVM.new_session (demoOracle GlobalValue.absent (Except.ok twoReturnEffects) 90)
        7 0).new_actor counterModule 7 100 =
      Except.error (async_extension_error ("inconsistent initializer `init`")) ∧
    (async_extension_error ("inconsistent initializer `init`")).gas_used = 0 ∧
    (100 : Nat) - 90 ≠ 0 :=
  ⟨rfl, rfl, by decide⟩

/-- Claim C3 (amended): whenever the engine call completes successfully but
the initializer returns an arity other than one value (`new_actor`), or the
handler yields more than one mutable-reference output (`handle_message`), the
operation returns the "inconsistent initializer" / "inconsistent handler"
`AsyncError` with `gas_used = 0` — `async_extension_error` hard-codes zero
gas, regardless of the gas the completed execution consumed.  The two
scenarios use distinct addresses `aN` (no state yet) and `aH` (state
present), as the respective operations require. -/
theorem consistency_errors_report_zero_gas
    (vm : AsyncVM) (o : EngineOracle) (fa aN aH : AccountAddress) (t gas mh : Nat)
    (module_id : ModuleId) (actor : ActorMetadata) (handler_id : Identifier)
    (args : List Bytes) (ty : MoveType) (gN gH : GlobalValue) (v : MoveValue)
    (lay : TypeLayout) (sb : Bytes) (eff1 eff2 : ExecEffects) (ga1 ga2 : Nat)
    (h1 : assocFind vm.actor_metadata module_id = Option.some actor)
    (h2 : o.load_type (TypeTag.struct actor.state_tag) = Except.ok ty)
    (h3 : o.load_resource aN ty = Except.ok gN)
    (h4 : gN.exists_res = Except.ok false)
    (h5 : o.execute (make_extensions fa t true) actor.module_id actor.initializer [] gas
            = (Except.ok eff1, ga1))
    (h6 : eff1.ret.return_values.length ≠ 1)
    (k1 : assocFind vm.message_table mh = Option.some (module_id, handler_id))
    (k2 : o.load_resource aH ty = Except.ok gH)
    (k3 : gH.borrow_read = Except.ok v)
    (k4 : o.get_type_layout (TypeTag.struct actor.state_tag) = Except.ok lay)
    (k5 : o.simple_serialize v lay = Option.some sb)
    (k6 : o.execute (make_extensions fa t true) module_id handler_id (sb :: args) gas
            = (Except.ok eff2, ga2))
    (k7 : eff2.ret.mutable_reference_outputs.length > 1) :
    (vm.new_session o fa t).new_actor module_id aN gas =
      Except.error (async_extension_error
        (("inconsistent initializer `") ++ actor.initializer ++ ("`"))) ∧
    (vm.new_session o fa t).handle_message aH mh args gas =
      Except.error (async_extension_error
        (("inconsistent handler `") ++ handler_id ++ ("`"))) ∧
    (async_extension_error
        (("inconsistent initializer `") ++ actor.initializer ++ ("`"))).gas_used = 0 ∧
    (async_extension_error
        (("inconsistent handler `") ++ handler_id ++ ("`"))).gas_used = 0 := by
  refine ⟨?_, ?_, rfl, rfl⟩
  · simp only [AsyncSession.new_actor, AsyncVM.new_session, h1, h2, h3, h4, h5]
    rw [if_pos h6]
  · simp only [AsyncSession.handle_message, AsyncSession.to_bcs, AsyncVM.new_session,
      k1, h1, h2, k2, k3, k4, k5, k6]
    simp [k7, Nat.lt_irrefl, if_pos]

/-! ## Claim C4 -/

/-- Claim C4: `new_actor` with a module identity missing from the catalog
fails with "actor unknown", and `handle_message` with a message hash missing
from the dispatch table fails with "unknown message hash"; both errors carry
`gas_used = 0`.  The engine oracle `o` is universally quantified and
unconstrained, so the result is the same whatever the engine would have done:
no engine invocation influences the outcome. -/
theorem routing_errors_zero_gas_no_engine_call
    (vm : AsyncVM) (o : EngineOracle) (fa a2 : AccountAddress) (t gas mh : Nat)
    (module_id : ModuleId) (args : List Bytes)
    (h1 : assocFind vm.actor_metadata module_id = Option.none)
    (h2 : assocFind vm.message_table mh = Option.none) :
    (vm.new_session o fa t).new_actor module_id a2 gas =
      Except.error (async_extension_error
        (("actor `") ++ module_id.display ++ ("` unknown"))) ∧
    (vm.new_session o fa t).handle_message a2 mh args gas =
      Except.error (async_extension_error
        (("unknown message hash `") ++ Nat.repr mh ++ ("`"))) ∧
    (async_extension_error (("actor `") ++ module_id.display ++ ("` unknown"))).gas_used = 0 ∧
    (async_extension_error
        (("unknown message hash `") ++ Nat.repr mh ++ ("`"))).gas_used = 0 := by
  refine ⟨?_, ?_, rfl, rfl⟩
  · simp only [AsyncSession.new_actor, AsyncVM.new_session, h1]
  · simp only [AsyncSession.handle_message, AsyncVM.new_session, h2]

/-! ## Claim C5 -/

/-- Claim C5: `new_actor` on an address whose resource slot for the actor's
state type is already occupied returns the "already exists" `AsyncError` with
`gas_used = 0`.  The oracle's `execute` is unconstrained, so the initializer
is never consulted: the result is fixed before any engine invocation. -/
theorem new_actor_already_exists_zero_gas
    (vm : AsyncVM) (o : EngineOracle) (fa a2 : AccountAddress) (t gas : Nat)
    (module_id : ModuleId) (actor : ActorMetadata) (ty : MoveType) (g : GlobalValue)
    (h1 : assocFind vm.actor_metadata module_id = Option.some actor)
    (h2 : o.load_type (TypeTag.struct actor.state_tag) = Except.ok ty)
    (h3 : o.load_resource a2 ty = Except.ok g)
    (h4 : g.exists_res = Except.ok true) :
    (vm.new_session o fa t).new_actor module_id a2 gas =
      Except.error (async_extension_error
        (("actor `") ++ module_id.short_str_lossless ++ ("` already exists at `")
          ++ Nat.repr a2 ++ ("`"))) ∧
    (async_extension_error
        (("actor `") ++ module_id.short_str_lossless ++ ("` already exists at `")
          ++ Nat.repr a2 ++ ("`"))).gas_used = 0 := by
  refine ⟨?_, rfl⟩
  simp only [AsyncSession.new_actor, AsyncVM.new_session, h1, h2, h3, h4]

/-! ## Association-list helpers for change-set reasoning -/

/-- An association list in which `assocFind` misses `k` has no entry with key
`k` at all. -/
theorem countKey_zero_of_assocFind_none {α β : Type} [DecidableEq α]
    (l : List (α × β)) (k : α) (h : assocFind l k = Option.none) :
    countKey l k = 0 := by
  induction l with
  | nil => rfl
  | cons e rest ih =>
    rcases e with ⟨k2, v⟩
    by_cases hk : k = k2
    · subst hk; simp [assocFind] at h
    · have h2 : assocFind rest k = Option.none := by simpa [assocFind, hk] using h
      have hk2 : ¬ (k2 = k) := fun hc => hk hc.symm
      simpa [countKey, List.filter_cons, hk2] using ih h2

/-- `countKey` distributes over append. -/
theorem countKey_append {α β : Type} [DecidableEq α]
    (l l2 : List (α × β)) (k : α) :
    countKey (l ++ l2) k = countKey l k + countKey l2 k := by
  simp [countKey, List.filter_append]

/-- Appending a binding for a key that `assocFind` misses makes that binding
the one `assocFind` returns. -/
theorem assocFind_append_self {α β : Type} [DecidableEq α]
    (l : List (α × β)) (k : α) (v : β) (h : assocFind l k = Option.none) :
    assocFind (l ++ [(k, v)]) k = Option.some v := by
  induction l with
  | nil => simp [assocFind]
  | cons e rest ih =>
    rcases e with ⟨k2, w⟩
    by_cases hk : k = k2
    · simp [assocFind, hk] at h
    · have h2 : assocFind rest k = Option.none := by simpa [assocFind, hk] using h
      simpa [assocFind, hk] using ih h2

/-! ## Claim C6 -/

/-- Claim C6: a successful `new_actor` yields a change set equal to the
engine-produced one extended with a single freshly published entry at
`(actorAddress, state type)` holding exactly the bytes of the initializer's
single return value; that key maps to the published bytes and occurs exactly
once.  (`publish_actor_state` succeeding requires the key to be absent from
the engine change set, hypothesis `h7`.) -/
theorem new_actor_success_change_set
    (vm : AsyncVM) (o : EngineOracle) (fa a2 : AccountAddress) (t gas : Nat)
    (module_id : ModuleId) (actor : ActorMetadata) (ty : MoveType) (g : GlobalValue)
    (eff : ExecEffects) (ga : Nat) (b : Bytes) (lay : TypeLayout)
    (h1 : assocFind vm.actor_metadata module_id = Option.some actor)
    (h2 : o.load_type (TypeTag.struct actor.state_tag) = Except.ok ty)
    (h3 : o.load_resource a2 ty = Except.ok g)
    (h4 : g.exists_res = Except.ok false)
    (h5 : o.execute (make_extensions fa t true) actor.module_id actor.initializer [] gas
            = (Except.ok eff, ga))
    (h6 : eff.ret.return_values = [(b, lay)])
    (h7 : assocFind eff.change_set (a2, actor.state_tag) = Option.none) :
    (vm.new_session o fa t).new_actor module_id a2 gas =
      Except.ok { change_set := eff.change_set ++ [((a2, actor.state_tag), Option.some b)],
                  events := eff.events, messages := eff.sent_during,
                  gas_used := wrap_sub_u64 ga gas } ∧
    assocFind (eff.change_set ++ [((a2, actor.state_tag), Option.some b)])
        (a2, actor.state_tag) = Option.some (Option.some b) ∧
    countKey (eff.change_set ++ [((a2, actor.state_tag), Option.some b)])
        (a2, actor.state_tag) = 1 := by
  refine ⟨?_, assocFind_append_self _ _ _ h7, ?_⟩
  · simp only [AsyncSession.new_actor, AsyncVM.new_session, h1, h2, h3, h4, h5, h6]
    simp [publish_actor_state, h7, first_return_bytes, make_extensions]
  · rw [countKey_append, countKey_zero_of_assocFind_none _ _ h7]
    simp [countKey]

/-! ## Claim C7 -/

/-- Claim C7: a successful `handle_message` whose handler yields exactly one
mutable-reference output writes the mutated bytes back: the change set is the
engine-produced one extended with the entry at `(actorAddress, state type)`
holding those bytes, and that key maps to them. -/
theorem handle_message_success_writes_back
    (vm : AsyncVM) (o : EngineOracle) (fa a2 : AccountAddress) (t gas mh : Nat)
    (module_id : ModuleId) (handler_id : Identifier) (actor : ActorMetadata)
    (args : List Bytes) (ty : MoveType) (g : GlobalValue) (v : MoveValue)
    (lay slay : TypeLayout) (sb b : Bytes) (i : Nat) (eff : ExecEffects) (ga : Nat)
    (k1 : assocFind vm.message_table mh = Option.some (module_id, handler_id))
    (h1 : assocFind vm.actor_metadata module_id = Option.some actor)
    (h2 : o.load_type (TypeTag.struct actor.state_tag) = Except.ok ty)
    (h3 : o.load_resource a2 ty = Except.ok g)
    (k3 : g.borrow_read = Except.ok v)
    (k4 : o.get_type_layout (TypeTag.struct actor.state_tag) = Except.ok slay)
    (k5 : o.simple_serialize v slay = Option.some sb)
    (h5 : o.execute (make_extensions fa t true) module_id handler_id (sb :: args) gas
            = (Except.ok eff, ga))
    (h6 : eff.ret.mutable_reference_outputs = [(i, b, lay)])
    (h7 : assocFind eff.change_set (a2, actor.state_tag) = Option.none) :
    (vm.new_session o fa t).handle_message a2 mh args gas =
      Except.ok { change_set := eff.change_set ++ [((a2, actor.state_tag), Option.some b)],
                  events := eff.events, messages := eff.sent_during,
                  gas_used := wrap_sub_u64 ga gas } ∧
    assocFind (eff.change_set ++ [((a2, actor.state_tag), Option.some b)])
        (a2, actor.state_tag) = Option.some (Option.some b) := by
  refine ⟨?_, assocFind_append_self _ _ _ h7⟩
  simp only [AsyncSession.handle_message, AsyncSession.to_bcs, AsyncVM.new_session,
    k1, h1, h2, h3, k3, k4, k5, h5, h6]
  simp [publish_actor_state, h7, first_mut_ref_bytes, make_extensions]

/-! ## Claim C8 -/

/-- Claim C8: a successful `handle_message` whose handler yields no
mutable-reference output performs no state write-back: the change set is
passed through unchanged from the engine (in particular, if the engine change
set has no entry for the actor's state key, neither has the result), while
the events and the messages queued during the execution are still returned. -/
theorem handle_message_no_mutation_frame
    (vm : AsyncVM) (o : EngineOracle) (fa a2 : AccountAddress) (t gas mh : Nat)
    (module_id : ModuleId) (handler_id : Identifier) (actor : ActorMetadata)
    (args : List Bytes) (ty : MoveType) (g : GlobalValue) (v : MoveValue)
    (slay : TypeLayout) (sb : Bytes) (eff : ExecEffects) (ga : Nat)
    (k1 : assocFind vm.message_table mh = Option.some (module_id, handler_id))
    (h1 : assocFind vm.actor_metadata module_id = Option.some actor)
    (h2 : o.load_type (TypeTag.struct actor.state_tag) = Except.ok ty)
    (h3 : o.load_resource a2 ty = Except.ok g)
    (k3 : g.borrow_read = Except.ok v)
    (k4 : o.get_type_layout (TypeTag.struct actor.state_tag) = Except.ok slay)
    (k5 : o.simple_serialize v slay = Option.some sb)
    (h5 : o.execute (make_extensions fa t true) module_id handler_id (sb :: args) gas
            = (Except.ok eff, ga))
    (h6 : eff.ret.mutable_reference_outputs = [])
    (h7 : assocFind eff.change_set (a2, actor.state_tag) = Option.none) :
    (vm.new_session o fa t).handle_message a2 mh args gas =
      Except.ok { change_set := eff.change_set, events := eff.events,
                  messages := eff.sent_during, gas_used := wrap_sub_u64 ga gas } ∧
    assocFind eff.change_set (a2, actor.state_tag) = Option.none := by
  refine ⟨?_, h7⟩
  simp only [AsyncSession.handle_message, AsyncSession.to_bcs, AsyncVM.new_session,
    k1, h1, h2, h3, k3, k4, k5, h5, h6]
  simp [make_extensions]

/-! ## Claim C9 -/

/-- Claim C9: the outgoing-message buffer is empty at session creation, and
for every successful `new_actor` or `handle_message` run the reported
`messages` are exactly the messages appended to the execution-context buffer
during that single engine invocation, in order (`sent_during` of the engine
outcome the run factors through).  Proved by inversion on an arbitrary
successful run of each operation.  The buffer append-only behaviour of the
native functions is modelled from the spec (`natives.rs` is outside the
embedded core). -/
theorem success_messages_exactly_queued
    (vm : AsyncVM) (o : EngineOracle) (fa aN aH : AccountAddress) (t gas mh : Nat)
    (module_id : ModuleId) (args : List Bytes) (succ1 succ2 : AsyncSuccess)
    (h1 : (vm.new_session o fa t).new_actor module_id aN gas = Except.ok succ1)
    (h2 : (vm.new_session o fa t).handle_message aH mh args gas = Except.ok succ2) :
    (vm.new_session o fa t).ext.sent = [] ∧
    (∃ actor eff,
        assocFind vm.actor_metadata module_id = Option.some actor ∧
        (o.execute (make_extensions fa t true) actor.module_id actor.initializer [] gas).1
          = Except.ok eff ∧
        succ1.messages = eff.sent_during) ∧
    (∃ mid hid sb eff,
        assocFind vm.message_table mh = Option.some (mid, hid) ∧
        (o.execute (make_extensions fa t true) mid hid (sb :: args) gas).1
          = Except.ok eff ∧
        succ2.messages = eff.sent_during) := by
  refine ⟨rfl, ?_, ?_⟩
  · simp only [AsyncSession.new_actor, AsyncVM.new_session] at h1
    repeat (split at h1 <;> try exact Except.noConfusion h1)
    injection h1 with h1e
    subst h1e
    exact ⟨_, _, by assumption, by assumption, by simp [make_extensions]⟩
  · simp only [AsyncSession.handle_message, AsyncSession.to_bcs, AsyncVM.new_session] at h2
    repeat (split at h2 <;> try exact Except.noConfusion h2)
    injection h2 with h2e
    subst h2e
    exact ⟨_, _, _, _, by assumption, by assumption, by simp [make_extensions]⟩

/-! ## Claim C10 -/

/-- Claim C10: every `handle_message` failure before the handler invocation —
a failing `load_type`, a failing `load_resource`, a failing
`borrow_global`/`read_ref` chain (in particular an absent resource), a
failing layout lookup inside `to_bcs`, or `simple_serialize` returning
nothing — produces an `AsyncError` with `gas_used = 0`.  No change set exists
on the error path (`AsyncError` carries none), and the oracle's `execute` is
unconstrained in every conjunct, so the handler is never consulted. -/
theorem handle_message_pre_engine_failures_zero_gas
    (vm : AsyncVM) (o : EngineOracle) (fa a2 : AccountAddress) (t gas mh : Nat)
    (module_id : ModuleId) (handler_id : Identifier) (actor : ActorMetadata)
    (args : List Bytes)
    (hm : assocFind vm.message_table mh = Option.some (module_id, handler_id))
    (ha : assocFind vm.actor_metadata module_id = Option.some actor) :
    (∀ e, o.load_type (TypeTag.struct actor.state_tag) = Except.error e →
      (vm.new_session o fa t).handle_message a2 mh args gas =
        Except.error { error := e, gas_used := 0 }) ∧
    (∀ ty e, o.load_type (TypeTag.struct actor.state_tag) = Except.ok ty →
      o.load_resource a2 ty = Except.error e →
      (vm.new_session o fa t).handle_message a2 mh args gas =
        Except.error { error := e.finish Location.undefined, gas_used := 0 }) ∧
    (∀ ty g e, o.load_type (TypeTag.struct actor.state_tag) = Except.ok ty →
      o.load_resource a2 ty = Except.ok g →
      g.borrow_read = Except.error e →
      (vm.new_session o fa t).handle_message a2 mh args gas =
        Except.error { error := e.finish Location.undefined, gas_used := 0 }) ∧
    (∀ ty g v e, o.load_type (TypeTag.struct actor.state_tag) = Except.ok ty →
      o.load_resource a2 ty = Except.ok g →
      g.borrow_read = Except.ok v →
      o.get_type_layout (TypeTag.struct actor.state_tag) = Except.error e →
      (vm.new_session o fa t).handle_message a2 mh args gas =
        Except.error { error := e.toPartialErr.finish Location.undefined, gas_used := 0 }) ∧
    (∀ ty g v lay, o.load_type (TypeTag.struct actor.state_tag) = Except.ok ty →
      o.load_resource a2 ty = Except.ok g →
      g.borrow_read = Except.ok v →
      o.get_type_layout (TypeTag.struct actor.state_tag) = Except.ok lay →
      o.simple_serialize v lay = Option.none →
      (vm.new_session o fa t).handle_message a2 mh args gas =
        Except.error { error := (pvm_extension_error ("serialization failed")).finish
                         Location.undefined, gas_used := 0 }) := by
  refine ⟨?_, ?_, ?_, ?_, ?_⟩
  · intro e he
    simp only [AsyncSession.handle_message, AsyncVM.new_session, hm, ha, he]
    rfl
  · intro ty e hty hres
    simp only [AsyncSession.handle_message, AsyncVM.new_session, hm, ha, hty, hres]
    rfl
  · intro ty g e hty hres hbor
    simp only [AsyncSession.handle_message, AsyncVM.new_session, hm, ha, hty, hres, hbor]
    rfl
  · intro ty g v e hty hres hbor hlay
    simp only [AsyncSession.handle_message, AsyncSession.to_bcs, AsyncVM.new_session,
      hm, ha, hty, hres, hbor, hlay]
    rfl
  · intro ty g v lay hty hres hbor hlay hser
    simp only [AsyncSession.handle_message, AsyncSession.to_bcs, AsyncVM.new_session,
      hm, ha, hty, hres, hbor, hlay, hser]
    rfl

/-! ## Witnesses: the hypothesis-bearing theorems hold at concrete inputs -/

/-- Witness for `consistency_errors_report_zero_gas`: the `Counter`
configuration with an engine run returning two values from the initializer
and two mutable-reference outputs from the handler. -/
theorem consistency_errors_report_zero_gas_witness :
    twoReturnEffects.ret.return_values.length ≠ 1 ∧
    twoMutEffects.ret.mutable_reference_outputs.length > 1 ∧
    ((demoVM.new_session splitOracle 3 0).new_actor counterModule 7 100 =
        Except.error (async_extension_error
          (("inconsistent initializer `") ++ counterMeta.initializer ++ ("`"))) ∧
      (demoVM.new_session splitOracle 3 0).handle_message 8 42 [] 100 =
        Except.error (async_extension_error
          (("inconsistent handler `") ++ ("increment") ++ ("`"))) ∧
      (async_extension_error
          (("inconsistent initializer `") ++ counterMeta.initializer ++ ("`"))).gas_used = 0 ∧
      (async_extension_error
          (("inconsistent handler `") ++ ("increment") ++ ("`"))).gas_used = 0) :=
  ⟨by decide, by decide,
    consistency_errors_report_zero_gas demoVM splitOracle 3 7 8 0 100 42 counterModule
      counterMeta ("increment") [] 0 GlobalValue.absent (GlobalValue.cached 5) 5 0 [9]
      twoReturnEffects twoMutEffects 90 80 rfl rfl rfl rfl rfl (by decide) rfl rfl rfl rfl
      rfl rfl (by decide)⟩

/-- Witness for `routing_errors_zero_gas_no_engine_call`: `otherModule` is
not registered in `demoVM` and hash `7` is not in its dispatch table. -/
theorem routing_errors_zero_gas_no_engine_call_witness :
    assocFind demoVM.actor_metadata otherModule = Option.none ∧
    assocFind demoVM.message_table 7 = Option.none ∧
    ((demoVM.new_session flagProbeOracle 3 0).new_actor otherModule 9 100 =
        Except.error (async_extension_error
          (("actor `") ++ otherModule.display ++ ("` unknown"))) ∧
      (demoVM.new_session flagProbeOracle 3 0).handle_message 9 7 [] 100 =
        Except.error (async_extension_error
          (("unknown message hash `") ++ Nat.repr 7 ++ ("`"))) ∧
      (async_extension_error
          (("actor `") ++ otherModule.display ++ ("` unknown"))).gas_used = 0 ∧
      (async_extension_error
          (("unknown message hash `") ++ Nat.repr 7 ++ ("`"))).gas_used = 0) :=
  ⟨rfl, rfl,
    routing_errors_zero_gas_no_engine_call demoVM flagProbeOracle 3 9 0 100 7 otherModule
      [] rfl rfl⟩

/-- Witness for `new_actor_already_exists_zero_gas`: the `Counter` state
resource is already present at address `7`. -/
theorem new_actor_already_exists_zero_gas_witness :
    (GlobalValue.cached 5).exists_res = Except.ok true ∧
    ((demoVM.new_session (demoOracle (GlobalValue.cached 5) (Except.ok oneReturnEffects) 90)
          3 0).new_actor counterModule 7 100 =
        Except.error (async_extension_error
          (("actor `") ++ counterModule.short_str_lossless ++ ("` already exists at `")
            ++ Nat.repr 7 ++ ("`"))) ∧
      (async_extension_error
          (("actor `") ++ counterModule.short_str_lossless ++ ("` already exists at `")
            ++ Nat.repr 7 ++ ("`"))).gas_used = 0) :=
  ⟨rfl,
    new_actor_already_exists_zero_gas demoVM
      (demoOracle (GlobalValue.cached 5) (Except.ok oneReturnEffects) 90) 3 7 0 100
      counterModule counterMeta 0 (GlobalValue.cached 5) rfl rfl rfl rfl⟩

/-- Witness for `new_actor_success_change_set`: the initializer returns the
single value `[0]`, which lands as the only entry at the actor's state key. -/
theorem new_actor_success_change_set_witness :
    oneReturnEffects.ret.return_values = [([0], 0)] ∧
    ((demoVM.new_session (demoOracle GlobalValue.absent (Except.ok oneReturnEffects) 90)
          3 0).new_actor counterModule 7 100 =
        Except.ok { change_set := [((7, counterStateTag), Option.some [0])], events := [],
                    messages := [], gas_used := 18446744073709551606 } ∧
      assocFind [((7, counterStateTag), Option.some [0])] (7, counterStateTag)
        = Option.some (Option.some [0]) ∧
      countKey [((7, counterStateTag), Option.some [0])] (7, counterStateTag) = 1) :=
  ⟨rfl,
    new_actor_success_change_set demoVM
      (demoOracle GlobalValue.absent (Except.ok oneReturnEffects) 90) 3 7 0 100
      counterModule counterMeta 0 GlobalValue.absent oneReturnEffects 90 [0] 0
      rfl rfl rfl rfl rfl rfl rfl⟩

/-- Witness for `handle_message_success_writes_back`: the handler mutates its
state parameter to `[7]`, which is written back at the actor's state key. -/
theorem handle_message_success_writes_back_witness :
    oneMutEffects.ret.mutable_reference_outputs = [(0, [7], 0)] ∧
    ((demoVM.new_session (demoOracle (GlobalValue.cached 5) (Except.ok oneMutEffects) 90)
          3 0).handle_message 7 42 [] 100 =
        Except.ok { change_set := [((7, counterStateTag), Option.some [7])], events := [4],
                    messages := [(9, 42, [[1]])], gas_used := 18446744073709551606 } ∧
      assocFind [((7, counterStateTag), Option.some [7])] (7, counterStateTag)
        = Option.some (Option.some [7])) :=
  ⟨rfl,
    handle_message_success_writes_back demoVM
      (demoOracle (GlobalValue.cached 5) (Except.ok oneMutEffects) 90) 3 7 0 100 42
      counterModule ("increment") counterMeta [] 0 (GlobalValue.cached 5) 5 0 0 [9] [7] 0
      oneMutEffects 90 rfl rfl rfl rfl rfl rfl rfl rfl rfl rfl⟩

/-- Witness for `handle_message_no_mutation_frame`: the handler mutates
nothing; the change set passes through empty while the event and the two
queued messages are still returned. -/
theorem handle_message_no_mutation_frame_witness :
    noMutEffects.ret.mutable_reference_outputs = [] ∧
    ((demoVM.new_session (demoOracle (GlobalValue.cached 5) (Except.ok noMutEffects) 100)
          3 0).handle_message 7 42 [] 100 =
        Except.ok { change_set := [], events := [5],
                    messages := [(4, 42, [[2]]), (5, 42, [[3]])], gas_used := 0 } ∧
      assocFind (noMutEffects.change_set) ((7 : AccountAddress), counterStateTag)
        = Option.none) :=
  ⟨rfl,
    handle_message_no_mutation_frame demoVM
      (demoOracle (GlobalValue.cached 5) (Except.ok noMutEffects) 100) 3 7 0 100 42
      counterModule ("increment") counterMeta [] 0 (GlobalValue.cached 5) 5 0 [9]
      noMutEffects 100 rfl rfl rfl rfl rfl rfl rfl rfl rfl rfl⟩

/-- Witness for `success_messages_exactly_queued`: the initializer queues one
message, the handler queues two; each successful result reports exactly those
messages in order. -/
theorem success_messages_exactly_queued_witness :
    ((demoVM.new_session messagingOracle 3 0).new_actor counterModule 7 100 =
      Except.ok { change_set := [((7, counterStateTag), Option.some [0])], events := [],
                  messages := [(3, 42, [[1]])], gas_used := 0 }) ∧
    ((demoVM.new_session messagingOracle 3 0).handle_message 8 42 [] 100 =
      Except.ok { change_set := [], events := [5],
                  messages := [(4, 42, [[2]]), (5, 42, [[3]])], gas_used := 0 }) ∧
    ((demoVM.new_session messagingOracle 3 0).ext.sent = [] ∧
      (∃ actor eff,
          assocFind demoVM.actor_metadata counterModule = Option.some actor ∧
          (messagingOracle.execute (make_extensions 3 0 true) actor.module_id
              actor.initializer [] 100).1 = Except.ok eff ∧
          ({ change_set := [((7, counterStateTag), Option.some [0])], events := [],
             messages := [(3, 42, [[1]])], gas_used := 0 } : AsyncSuccess).messages
            = eff.sent_during) ∧
      (∃ mid hid sb eff,
          assocFind demoVM.message_table 42 = Option.some (mid, hid) ∧
          (messagingOracle.execute (make_extensions 3 0 true) mid hid (sb :: []) 100).1
            = Except.ok eff ∧
          ({ change_set := [], events := [5],
             messages := [(4, 42, [[2]]), (5, 42, [[3]])], gas_used := 0 } : AsyncSuccess).messages
            = eff.sent_during)) :=
  ⟨rfl, rfl,
    success_messages_exactly_queued demoVM messagingOracle 3 7 8 0 100 42 counterModule []
      { change_set := [((7, counterStateTag), Option.some [0])], events := [],
        messages := [(3, 42, [[1]])], gas_used := 0 }
      { change_set := [], events := [5],
        messages := [(4, 42, [[2]]), (5, 42, [[3]])], gas_used := 0 }
      rfl rfl⟩

/-- Witness for `handle_message_pre_engine_failures_zero_gas`: each of the
five pre-engine failure stages, exercised with a dedicated oracle; every one
reports `gas_used = 0`.  The third conjunct is the absent-resource case
(`borrow_global` failing with `MISSING_DATA`). -/
theorem handle_message_pre_engine_failures_zero_gas_witness :
    ((demoVM.new_session failTypeOracle 3 0).handle_message 7 42 [] 100 =
        Except.error { error := demoVMError, gas_used := 0 }) ∧
    ((demoVM.new_session failResourceOracle 3 0).handle_message 7 42 [] 100 =
        Except.error { error := demoPVMError.finish Location.undefined, gas_used := 0 }) ∧
    ((demoVM.new_session (demoOracle GlobalValue.absent (Except.error demoVMError) 90)
          3 0).handle_message 7 42 [] 100 =
        Except.error { error := ({ major_status := StatusCode.MISSING_DATA,
                                   message := Option.none } : PartialVMError).finish
                                   Location.undefined,
                       gas_used := 0 }) ∧
    ((demoVM.new_session failLayoutOracle 3 0).handle_message 7 42 [] 100 =
        Except.error { error := demoVMError.toPartialErr.finish Location.undefined,
                       gas_used := 0 }) ∧
    ((demoVM.new_session failSerializeOracle 3 0).handle_message 7 42 [] 100 =
        Except.error { error := (pvm_extension_error (("serialization failed"))).finish
                                  Location.undefined,
                       gas_used := 0 }) :=
  ⟨(handle_message_pre_engine_failures_zero_gas demoVM failTypeOracle 3 7 0 100 42
      counterModule ("increment") counterMeta [] rfl rfl).1 demoVMError rfl,
   (handle_message_pre_engine_failures_zero_gas demoVM failResourceOracle 3 7 0 100 42
      counterModule ("increment") counterMeta [] rfl rfl).2.1 0 demoPVMError rfl rfl,
   (handle_message_pre_engine_failures_zero_gas demoVM
      (demoOracle GlobalValue.absent (Except.error demoVMError) 90) 3 7 0 100 42
      counterModule ("increment") counterMeta [] rfl rfl).2.2.1 0 GlobalValue.absent
      ({ major_status := StatusCode.MISSING_DATA, message := Option.none } : PartialVMError)
      rfl rfl rfl,
   (handle_message_pre_engine_failures_zero_gas demoVM failLayoutOracle 3 7 0 100 42
      counterModule ("increment") counterMeta [] rfl rfl).2.2.2.1 0 (GlobalValue.cached 5)
      5 demoVMError rfl rfl rfl rfl,
   (handle_message_pre_engine_failures_zero_gas demoVM failSerializeOracle 3 7 0 100 42
      counterModule ("increment") counterMeta [] rfl rfl).2.2.2.2 0 (GlobalValue.cached 5)
      5 0 rfl rfl rfl rfl rfl⟩

end MoveAsyncVM
